import Mathlib

/-!
Shallow embedding of `src/simple_cli.py` (UestcBbsClient): the session
lifecycle of `WebAPI` — login, token exchange, login-status probing,
cookie persistence, and the HTML top-posts extraction.

Network and filesystem effects are modelled as explicit environment
values passed to each operation; raised Python exceptions that escape a
function are modelled as result constructors, and exceptions caught by a
`try/except` are folded into the boolean / `Option` results the code
returns on those paths.
-/

namespace SimpleCli

/-- Outcome of one HTTP request whose body is inspected as text.
`timeout` and `netError` model `requests` exceptions thrown before a
response exists; `response` carries the status code and body text. -/
inductive HttpOutcome where
  | timeout
  | netError
  | response (status : Nat) (body : String)
deriving DecidableEq, Repr

/-- `requests.Response.raise_for_status` raises `HTTPError` exactly for
status codes in 400..599. -/
def raisesForStatus (status : Nat) : Bool :=
  decide (400 ≤ status) && decide (status < 600)

/-- Whether the character list `pat` occurs at the head of `s`. -/
def leadsWith : List Char → List Char → Bool
  | [], _ => true
  | _ :: _, [] => false
  | a :: as, b :: bs => a == b && leadsWith as bs

/-- Whether `pat` occurs somewhere in `s` (Python `pat in s`). -/
def occursIn (pat : List Char) : List Char → Bool
  | [] => leadsWith pat []
  | c :: cs => leadsWith pat (c :: cs) || occursIn pat cs

/-- Python `pat in s` on strings. -/
def containsSub (s pat : String) : Bool :=
  occursIn pat.toList s.toList

/-- The welcome marker `'欢迎您回来'` tested by `login` and
`check_login_status`. -/
def welcomeMarker : String := "欢迎您回来"

/-- The logout marker `'退出'` tested by `check_login_status`. -/
def logoutMarker : String := "退出"

/-- The user-panel marker `'用户面板'` tested by `check_login_status`. -/
def panelMarker : String := "用户面板"

/-- `WebAPI.check_login_status`: GET the site root; on a non-error
response, test the body for any of the three logged-in markers; the bare
`except:` converts every raised exception into `False`. -/
def check_login_status (env : HttpOutcome) : Bool :=
  match env with
  | .response status body =>
      if raisesForStatus status then false
      else containsSub body welcomeMarker || containsSub body logoutMarker ||
        containsSub body panelMarker
  | _ => false

/-- The session header collection (`self.session.headers`), modelled as
an association list. -/
abbrev Headers := List (String × String)

/-- `dict.update {k: v}` on an association list: replace the value at
`k` if present, otherwise append `(k, v)`. -/
def setHeader (hs : Headers) (k v : String) : Headers :=
  if hs.any (fun p => p.1 == k) then
    hs.map (fun p => if p.1 == k then (k, v) else p)
  else hs ++ [(k, v)]

/-- Outcome of the token-endpoint POST in `update_authorization`.
`auth` is `some a` when `r.json()['data']['authorization']` evaluates to
the string `a`, and `none` when the body is not JSON or the nested field
is missing (a raised parse/`KeyError`). -/
inductive TokenOutcome where
  | timeout
  | netError
  | response (status : Nat) (auth : Option String)
deriving DecidableEq, Repr

/-- `WebAPI.update_authorization`: POST the token endpoint; on success
install the `authorization` string as the session's `Authorization`
header and return `True`; every raised exception is caught, printed and
converted to `False` with the headers untouched. -/
def update_authorization (env : TokenOutcome) (hs : Headers) : Bool × Headers :=
  match env with
  | .response status auth =>
      if raisesForStatus status then (false, hs)
      else
        match auth with
        | some a => (true, setHeader hs "Authorization" a)
        | none => (false, hs)
  | _ => (false, hs)

/-- The session cookie collection (`self.session.cookies`), modelled as
an association list of name/value pairs; a `CookieJar` may hold several
cookies with the same name. -/
abbrev CookieJar := List (String × String)

/-- Python `dict` update `d[k] = v` on an association list with distinct
keys: overwrite in place, or append when `k` is fresh. -/
def dictInsert (d : CookieJar) (k v : String) : CookieJar :=
  if d.any (fun p => p.1 == k) then
    d.map (fun p => if p.1 == k then (k, v) else p)
  else d ++ [(k, v)]

/-- `requests.utils.dict_from_cookiejar`: build a name→value `dict` from
the jar; a later cookie with the same name overwrites an earlier one. -/
def dict_from_cookiejar (jar : CookieJar) : CookieJar :=
  jar.foldl (fun d kv => dictInsert d kv.1 kv.2) []

/-- `requests.utils.cookiejar_from_dict`: one cookie per dict entry. -/
def cookiejar_from_dict (d : CookieJar) : CookieJar := d

/-- The persisted record `cookies.json`. `missing` = no file, `empty` =
zero bytes, `jsonDict d` = a JSON object of strings parsed as `d`,
`garbage` = non-empty but unparseable. -/
inductive FileContent where
  | missing
  | empty
  | jsonDict (d : CookieJar)
  | garbage
deriving DecidableEq, Repr

/-- `WebAPI.save_cookies`: serialize `dict_from_cookiejar(cookies)` over
the record; a failed write is caught and printed, leaving the old record
(and the in-memory jar) untouched. `saveOk` models whether the write
succeeds. -/
def save_cookies (jar : CookieJar) (saveOk : Bool) (file : FileContent) : FileContent :=
  if saveOk then .jsonDict (dict_from_cookiejar jar) else file

/-- What the load step reported: a parsed jar adopted silently, nothing
to load (no message), or a parse failure printed and swallowed. -/
inductive LoadOutcome where
  | adoptedQuiet
  | absentQuiet
  | absentLogged
deriving DecidableEq, Repr

/-- The load step of `WebAPI.__init__` plus `WebAPI.load_cookies`: the
constructor calls `load_cookies` only when `cookies.json` exists with
size > 0; `load_cookies` replaces the session jar on a successful parse
and otherwise prints the failure, leaving the jar unchanged. -/
def initLoad (file : FileContent) (jar : CookieJar) : CookieJar × LoadOutcome :=
  match file with
  | .missing => (jar, .absentQuiet)
  | .empty => (jar, .absentQuiet)
  | .jsonDict d => (cookiejar_from_dict d, .adoptedQuiet)
  | .garbage => (jar, .absentLogged)

/-- Saving a jar to a fresh record and loading it back (`save_cookies`
then `load_cookies`, both succeeding at the filesystem level). -/
def saveLoadRoundTrip (jar : CookieJar) : CookieJar :=
  (initLoad (save_cookies jar true .missing) []).1

/-- The in-memory session state owned by `WebAPI`: cookie jar plus
session headers. -/
structure SessionState where
  cookies : CookieJar
  headers : Headers
deriving DecidableEq, Repr

/-- What `WebAPI.login` does at its boundary: return a boolean, or let
a raised `HepanException` with the given message escape. -/
inductive LoginResult where
  | retBool (b : Bool)
  | raisedHepan (msg : String)
deriving DecidableEq, Repr

/-- The message of the `HepanException` raised on a marker-less login
response: `f'登录失败 username={username}, password={password}\n{r.text}'`. -/
def loginFailMsg (username password body : String) : String :=
  "登录失败 username=" ++ username ++ ", password=" ++ password ++ "\n" ++ body

/-- Environment of one `login` call: the login-endpoint outcome, the
session jar as it stands after that response's `Set-Cookie` handling,
whether the `cookies.json` write succeeds, and the token-endpoint
outcome for the nested `update_authorization` call. -/
structure LoginEnv where
  resp : HttpOutcome
  respCookies : CookieJar
  saveOk : Bool
  tokenResp : TokenOutcome
deriving DecidableEq, Repr

/-- `WebAPI.login`: POST the credentials; on a response containing the
welcome marker, save the cookies and return `update_authorization()`'s
boolean; on a marker-less response raise `HepanException` (re-raised by
the handler); any other raised exception is printed and converted to
`False`. -/
def login (username password : String) (st : SessionState) (file : FileContent)
    (env : LoginEnv) : LoginResult × SessionState × FileContent :=
  match env.resp with
  | .response status body =>
      let st1 : SessionState := { st with cookies := env.respCookies }
      if raisesForStatus status then (.retBool false, st1, file)
      else if containsSub body welcomeMarker then
        let file1 := save_cookies st1.cookies env.saveOk file
        let tok := update_authorization env.tokenResp st1.headers
        (.retBool tok.1, { st1 with headers := tok.2 }, file1)
      else (.raisedHepan (loginFailMsg username password body), st1, file)
  | _ => (.retBool false, st, file)

/-- Whether an `HttpOutcome` makes `session.post`/`raise_for_status`
raise a (non-`HepanException`) transport exception. -/
def transportFault (o : HttpOutcome) : Bool :=
  match o with
  | .response status _ => raisesForStatus status
  | _ => true

/-- Python truthiness of the constructor's optional `username` /
`password` arguments: `None` and `''` are falsy. -/
def truthy : Option String → Bool
  | none => false
  | some s => !(s == "")

/-- What `WebAPI.__init__` does at its boundary: normal return, the
`Exception('Cookie已失效或不存在')` raised when no valid session is found,
or a `HepanException` escaping from the nested `login()` call. -/
inductive InitResult where
  | ok
  | sessionInvalid
  | raisedHepan (msg : String)
deriving DecidableEq, Repr

/-- Trace of one `WebAPI.__init__` run: the boundary result, whether
`login()` was called, and the final session state and record. -/
structure InitTrace where
  result : InitResult
  loginAttempted : Bool
  st : SessionState
  file : FileContent
deriving DecidableEq, Repr

/-- `WebAPI.__init__`: load any persisted cookies, then — with
`autoLogin` and truthy credentials — call `login()` (its boolean is
discarded; a `HepanException` propagates); with `autoLogin` and no
credentials, probe `check_login_status()` and raise when it fails;
without `autoLogin`, do nothing further. -/
def webInit (username password : Option String) (autoLogin : Bool)
    (file : FileContent) (checkEnv : HttpOutcome) (loginEnv : LoginEnv) : InitTrace :=
  let loaded := initLoad file []
  let st0 : SessionState := { cookies := loaded.1, headers := [] }
  if autoLogin && truthy username && truthy password then
    let r := login (username.getD "") (password.getD "") st0 file loginEnv
    match r.1 with
    | .raisedHepan m =>
        { result := .raisedHepan m, loginAttempted := true, st := r.2.1, file := r.2.2 }
    | .retBool _ =>
        { result := .ok, loginAttempted := true, st := r.2.1, file := r.2.2 }
  else if autoLogin then
    if check_login_status checkEnv then
      { result := .ok, loginAttempted := false, st := st0, file := file }
    else
      { result := .sessionInvalid, loginAttempted := false, st := st0, file := file }
  else
    { result := .ok, loginAttempted := false, st := st0, file := file }

/-- Whitespace stripped by CPython `int(str)` around the number: the
ASCII whitespace characters plus NEL and the Unicode space separators
(0x09–0x0D, 0x20, 0x85, 0xA0, 0x1680, 0x2000–0x200A, 0x2028, 0x2029,
0x202F, 0x205F, 0x3000). The file separators 0x1C–0x1F satisfy
`str.isspace()` but are rejected by `int`, so they are excluded here. -/
def isPySpace (c : Char) : Bool :=
  let n := c.toNat
  (decide (0x09 ≤ n) && decide (n ≤ 0x0D)) || n == 0x20 || n == 0x85 ||
    n == 0xA0 || n == 0x1680 ||
    (decide (0x2000 ≤ n) && decide (n ≤ 0x200A)) || n == 0x2028 ||
    n == 0x2029 || n == 0x202F || n == 0x205F || n == 0x3000

/-- Strip leading and trailing whitespace. -/
def pyStrip (cs : List Char) : List Char :=
  ((cs.dropWhile isPySpace).reverse.dropWhile isPySpace).reverse

/-- First codepoint of every run of ten consecutive decimal digits
(general category Nd) of Unicode 14.0, the database of CPython 3.11;
`int(str)` accepts exactly these characters as digits, each worth its
offset from the run's base. -/
def ndBases : List Nat :=
  [0x0030, 0x0660, 0x06F0, 0x07C0, 0x0966, 0x09E6, 0x0A66, 0x0AE6, 0x0B66,
   0x0BE6, 0x0C66, 0x0CE6, 0x0D66, 0x0DE6, 0x0E50, 0x0ED0, 0x0F20, 0x1040,
   0x1090, 0x17E0, 0x1810, 0x1946, 0x19D0, 0x1A80, 0x1A90, 0x1B50, 0x1BB0,
   0x1C40, 0x1C50, 0xA620, 0xA8D0, 0xA900, 0xA9D0, 0xA9F0, 0xAA50, 0xABF0,
   0xFF10, 0x104A0, 0x10D30, 0x11066, 0x110F0, 0x11136, 0x111D0, 0x112F0,
   0x11450, 0x114D0, 0x11650, 0x116C0, 0x11730, 0x118E0, 0x11950, 0x11C50,
   0x11D50, 0x11DA0, 0x16A60, 0x16AC0, 0x16B50, 0x1D7CE, 0x1D7D8, 0x1D7E2,
   0x1D7EC, 0x1D7F6, 0x1E140, 0x1E2F0, 0x1E950, 0x1FBF0]

/-- The decimal value of a Unicode decimal digit, `none` for any other
character. -/
def decDigit (c : Char) : Option Nat :=
  (ndBases.find? (fun b => decide (b ≤ c.toNat) && decide (c.toNat < b + 10))).map
    (fun b => c.toNat - b)

/-- The digits after the first one, folded onto `acc`: CPython's
grouping rule admits a single underscore between two digits, never
leading, trailing or doubled. -/
def moreDigits : List Char → Nat → Option Nat
  | [], acc => some acc
  | ['_'], _ => none
  | '_' :: c :: rest, acc =>
      match decDigit c with
      | some d => moreDigits rest (10 * acc + d)
      | none => none
  | c :: rest, acc =>
      match decDigit c with
      | some d => moreDigits rest (10 * acc + d)
      | none => none

/-- A digit run `digit (underscore? digit)*`; `none` on an empty list,
a non-digit, or a misplaced underscore. -/
def digitsVal (cs : List Char) : Option Nat :=
  match cs with
  | c :: rest =>
      match decDigit c with
      | some d => moreDigits rest d
      | none => none
  | [] => none

/-- Python `int(str)`: optional surrounding whitespace, optional single
ASCII sign, then a run of Unicode decimal digits with underscore
grouping; `none` models the `ValueError` raised on anything else. -/
def pyInt (s : String) : Option Int :=
  match pyStrip s.toList with
  | '-' :: rest => (digitsVal rest).map (fun n => -(n : Int))
  | '+' :: rest => (digitsVal rest).map (fun n => (n : Int))
  | cs => (digitsVal cs).map (fun n => (n : Int))

/-- Characters after the first occurrence of `pat`; `none` when `pat`
does not occur (so `isSome` is Python's `pat in s`). -/
def dropAfterFirst (pat : List Char) : List Char → Option (List Char)
  | [] => if leadsWith pat [] then some [] else none
  | c :: cs =>
      if leadsWith pat (c :: cs) then some ((c :: cs).drop pat.length)
      else dropAfterFirst pat cs

/-- Prefix of `s` up to (excluding) the first occurrence of `pat`; all
of `s` when `pat` does not occur. With `dropAfterFirst` this reproduces
Python `s.split(pat)[0]` and `s.split(pat)[1]`. -/
def takeUntilFirst (pat : List Char) : List Char → List Char
  | [] => []
  | c :: cs => if leadsWith pat (c :: cs) then [] else c :: takeUntilFirst pat cs

/-- The `tid` computation of `get_top_posts` on one href:
`tid = 0`, overwritten — when `'tid=' in href` — by
`int(href.split('tid=')[1].split('&')[0])`; `none` models the
`ValueError` escaping from `int`. -/
def tidFromHref (href : String) : Option Int :=
  let tidPat : List Char := "tid=".toList
  match dropAfterFirst tidPat href.toList with
  | none => some 0
  | some after =>
      pyInt (String.mk (takeUntilFirst ['&'] (takeUntilFirst tidPat after)))

/-- An `<a>` element: its `title` attribute when present, and its `href`
attribute when present (`a.get('href', '')` defaults to `''`). -/
structure Anchor where
  title : Option String
  href : Option String
deriving DecidableEq, Repr

/-- An `<li>` element, reduced to its anchor descendants in document
order; `li.find('a', title=True)` picks the first one with a `title`
attribute. -/
abbrev ListItem := List Anchor

/-- `li.find('a', title=True)`. -/
def findTitledAnchor (li : ListItem) : Option Anchor :=
  li.find? (fun a => a.title.isSome)

/-- A parsed HTML document, reduced to the parts `get_top_posts` reads:
for each element id, the `<li>` elements of the first element carrying
that id. -/
abbrev Doc := List (String × List ListItem)

/-- `soup.find(id=target)` followed by `find_all('li')`. -/
def findById (doc : Doc) (i : String) : Option (List ListItem) :=
  (doc.find? (fun p => p.1 == i)).map (fun p => p.2)

/-- An activity entry `{'tid': tid, 'title': title}`. -/
structure ActivityEntry where
  tid : Int
  title : String
deriving DecidableEq, Repr

/-- The per-container loop of `get_top_posts`: list items without a
titled anchor are skipped; a `ValueError` from the tid conversion
escapes the loop (modelled as `none`). -/
def extractItems : List ListItem → Option (List ActivityEntry)
  | [] => some []
  | li :: rest =>
      match findTitledAnchor li with
      | none => extractItems rest
      | some a =>
          match tidFromHref (a.href.getD "") with
          | none => none
          | some tid =>
              (extractItems rest).map
                (fun es => { tid := tid, title := a.title.getD "" } :: es)

/-- The entry produced from one titled anchor when its tid conversion
succeeds (with the default 0 for an absent parameter). -/
def entryOf (a : Anchor) : ActivityEntry :=
  { tid := (tidFromHref (a.href.getD "")).getD 0, title := a.title.getD "" }

/-- The entries a container's items yield when no tid conversion fails. -/
def specEntries (lis : List ListItem) : List ActivityEntry :=
  lis.filterMap (fun li => (findTitledAnchor li).map entryOf)

/-- Whether a list item's tid conversion (if it has a titled anchor)
succeeds. -/
def liOk (li : ListItem) : Bool :=
  match findTitledAnchor li with
  | none => true
  | some a => (tidFromHref (a.href.getD "")).isSome

/-- Outcome of the site-root GET of `get_top_posts`, with the body
already parsed by `BeautifulSoup` into a `Doc`. -/
inductive PageOutcome where
  | timeout
  | netError
  | response (status : Nat) (doc : Doc)
deriving DecidableEq, Repr

/-- The id of the latest-replies container (`new_reply`). -/
def newReplyBlock : String := "portal_block_66_content"

/-- The id of the latest-threads container (`new_post`). -/
def newPostBlock : String := "portal_block_67_content"

/-- The result dict of `get_top_posts`. -/
structure TopPosts where
  new_reply : List ActivityEntry
  new_post : List ActivityEntry
deriving DecidableEq, Repr

/-- `WebAPI.get_top_posts`: GET the site root, locate the two
containers (a missing container contributes `[]`), extract their items;
every raised exception — transport, error status, or a tid
`ValueError` — is caught, printed and converted to `None`. -/
def get_top_posts (env : PageOutcome) : Option TopPosts :=
  match env with
  | .response status doc =>
      if raisesForStatus status then none
      else
        match extractItems ((findById doc newReplyBlock).getD []) with
        | none => none
        | some reply =>
            match extractItems ((findById doc newPostBlock).getD []) with
            | none => none
            | some post => some { new_reply := reply, new_post := post }
  | _ => none

/-! ### Helper lemmas -/

theorem toList_append (a b : String) : (a ++ b).toList = a.toList ++ b.toList := by
  cases a
  cases b
  rfl

theorem leadsWith_self_append (pat r : List Char) : leadsWith pat (pat ++ r) = true := by
  induction pat with
  | nil => rfl
  | cons a as ih => simp [leadsWith, ih]

theorem occursIn_self_append (pat l : List Char) : occursIn pat (pat ++ l) = true := by
  cases pat with
  | nil =>
      cases l with
      | nil => rfl
      | cons c cs => simp [occursIn, leadsWith]
  | cons p ps =>
      simpa [occursIn] using Or.inl (leadsWith_self_append (p :: ps) l)

theorem occursIn_append_pat (pat l1 l2 : List Char) :
    occursIn pat (l1 ++ (pat ++ l2)) = true := by
  induction l1 with
  | nil => simpa using occursIn_self_append pat l2
  | cons c cs ih => simp [occursIn, ih]

/-- The raised login-failure message always contains the literal
password, which appears verbatim after `password=`. -/
theorem loginFailMsg_contains_password (u p body : String) :
    containsSub (loginFailMsg u p body) p = true := by
  unfold containsSub loginFailMsg
  rw [toList_append, toList_append, toList_append, toList_append]
  have h := occursIn_append_pat p.toList
    (("登录失败 username=".toList ++ u.toList) ++ ", password=".toList)
    ("\n".toList ++ body.toList)
  simpa [List.append_assoc] using h

/-! ### Claims -/

/-- C1, counterexample: with username `alice` and password `hunter2`
against a marker-less 200 response, `login` raises `HepanException`
whose message does contain the literal password — refuting "the raised
error's text never contains the literal password value". -/
theorem C1_counterexample :
    (login "alice" "hunter2" { cookies := [], headers := [] } .missing
        { resp := .response 200 "denied", respCookies := [], saveOk := true,
          tokenResp := .timeout }).1 =
      .raisedHepan (loginFailMsg "alice" "hunter2" "denied") ∧
      containsSub (loginFailMsg "alice" "hunter2" "denied") "hunter2" = true := by
  exact ⟨rfl, rfl⟩

/-- C1, amended: for every (username, password) pair for which the login
response (a non-error status) lacks the welcome marker, `login` raises
the login-rejection error carrying the username, the password and the
raw response body, and the raised error's text always contains the
literal password value. -/
theorem C1_corrected (u p : String) (st : SessionState) (file : FileContent)
    (env : LoginEnv) (status : Nat) (body : String)
    (hresp : env.resp = .response status body)
    (hstatus : raisesForStatus status = false)
    (hmarker : containsSub body welcomeMarker = false) :
    (login u p st file env).1 = .raisedHepan (loginFailMsg u p body) ∧
      containsSub (loginFailMsg u p body) p = true := by
  refine ⟨?_, loginFailMsg_contains_password u p body⟩
  simp [login, hresp, hstatus, hmarker]

/-- C1 witness: the amended theorem applied at a concrete rejection. -/
theorem C1_corrected_witness :
    (login "bob" "pw123" { cookies := [], headers := [] } .empty
        { resp := .response 200 "nope", respCookies := [("k", "v")], saveOk := true,
          tokenResp := .netError }).1 =
      .raisedHepan (loginFailMsg "bob" "pw123" "nope") ∧
      containsSub (loginFailMsg "bob" "pw123" "nope") "pw123" = true :=
  C1_corrected "bob" "pw123" { cookies := [], headers := [] } .empty
    { resp := .response 200 "nope", respCookies := [("k", "v")], saveOk := true,
      tokenResp := .netError } 200 "nope" rfl (by decide) (by decide)

/-- C2, counterexample: a login whose response carries the welcome
marker, whose cookie write fails (swallowed by `save_cookies`), and
whose token endpoint answers with an empty `authorization` string,
returns `True` — yet no record was persisted and the installed
`Authorization` token is empty, refuting "on that path the cookie
collection has been persisted and a non-empty Authorization token
installed". -/
theorem C2_counterexample :
    login "u" "p" { cookies := [], headers := [] } .missing
        { resp := .response 200 "说欢迎您回来了", respCookies := [("sid", "1")],
          saveOk := false, tokenResp := .response 200 (some "") } =
      (.retBool true,
        { cookies := [("sid", "1")], headers := [("Authorization", "")] },
        .missing) := by
  decide

/-- C2, amended: `login` returns `True` iff the login response is a
non-error status whose body contains the welcome marker and the token
exchange returns `True`; on that path the session's `Authorization`
header is set to the token string from the token response (which may be
empty) and the cookie collection has been persisted exactly when the
record write succeeds — a failed write is swallowed and does not affect
the returned value. -/
theorem C2_corrected (u p : String) (st : SessionState) (file : FileContent)
    (env : LoginEnv) :
    ((login u p st file env).1 = .retBool true ↔
      ∃ status body, env.resp = .response status body ∧
        raisesForStatus status = false ∧
        containsSub body welcomeMarker = true ∧
        (update_authorization env.tokenResp st.headers).1 = true) ∧
    ((login u p st file env).1 = .retBool true →
      (login u p st file env).2.2 = save_cookies env.respCookies env.saveOk file ∧
      (login u p st file env).2.1.headers =
        (update_authorization env.tokenResp st.headers).2 ∧
      (env.saveOk = true →
        (login u p st file env).2.2 =
          .jsonDict (dict_from_cookiejar env.respCookies))) := by
  obtain ⟨resp, rc, so, tr⟩ := env
  cases resp with
  | timeout => simp [login]
  | netError => simp [login]
  | response status body =>
      by_cases hs : raisesForStatus status
      · simp [login, hs]
      · by_cases hm : containsSub body welcomeMarker
        · by_cases ht : (update_authorization tr st.headers).1
          · refine ⟨⟨fun _ => ⟨status, body, rfl, by simpa using hs, hm, ht⟩,
              fun _ => by simp [login, hs, hm, ht]⟩,
              fun _ => ⟨?_, ?_, fun hso => ?_⟩⟩
            · simp [login, hs, hm]
            · simp [login, hs, hm]
            · have hso' : so = true := hso
              simp [login, save_cookies, hs, hm, hso']
          · simp [login, save_cookies, hs, hm, ht]
        · simp [login, hs, hm]

/-- C2 witness: the amended theorem applied at a concrete successful
login (marker present, write succeeds, token `tok` delivered) shows the
record persisted there. -/
theorem C2_corrected_witness :
    (login "u" "p" { cookies := [], headers := [] } .missing
        { resp := .response 200 "嗯欢迎您回来嗯", respCookies := [("sid", "9")],
          saveOk := true, tokenResp := .response 200 (some "tok") }).2.2 =
      FileContent.jsonDict (dict_from_cookiejar [("sid", "9")]) :=
  (((C2_corrected "u" "p" { cookies := [], headers := [] } .missing
      { resp := .response 200 "嗯欢迎您回来嗯", respCookies := [("sid", "9")],
        saveOk := true, tokenResp := .response 200 (some "tok") }).2
    (by decide)).2.2) (by decide)

/-- C7: any transport-level fault on the login request (timeout, DNS or
connection failure, or an error status raised by `raise_for_status`)
makes `login` return `False` without raising `HepanException`. -/
theorem C7_confirmed (u p : String) (st : SessionState) (file : FileContent)
    (env : LoginEnv) (h : transportFault env.resp = true) :
    (login u p st file env).1 = .retBool false := by
  cases henv : env.resp with
  | timeout => simp [login, henv]
  | netError => simp [login, henv]
  | response status body =>
      have hs : raisesForStatus status = true := by
        simpa [transportFault, henv] using h
      simp [login, henv, hs]

/-- C7 witness: the theorem applied at a concrete timeout. -/
theorem C7_confirmed_witness :
    transportFault HttpOutcome.timeout = true ∧
      (login "u" "p" { cookies := [], headers := [] } .missing
        { resp := .timeout, respCookies := [], saveOk := true,
          tokenResp := .timeout }).1 = .retBool false :=
  ⟨by decide,
    C7_confirmed "u" "p" { cookies := [], headers := [] } .missing
      { resp := .timeout, respCookies := [], saveOk := true,
        tokenResp := .timeout } (by decide)⟩

/-- When every item's tid conversion succeeds, the container loop
collects exactly the titled anchors' entries, in document order. -/
theorem extractItems_eq_specEntries (lis : List ListItem)
    (h : ∀ li ∈ lis, liOk li = true) :
    extractItems lis = some (specEntries lis) := by
  induction lis with
  | nil => rfl
  | cons li rest ih =>
      have hli : liOk li = true := h li (List.mem_cons_self li rest)
      have hrest := ih (fun x hx => h x (List.mem_cons_of_mem li hx))
      cases hfa : findTitledAnchor li with
      | none => simp [extractItems, specEntries, hfa, hrest, List.filterMap_cons]
      | some a =>
          have : (tidFromHref (a.href.getD "")).isSome = true := by
            simpa [liOk, hfa] using hli
          obtain ⟨tid, htid⟩ := Option.isSome_iff_exists.mp this
          simp [extractItems, specEntries, entryOf, hfa, htid, hrest,
            List.filterMap_cons]

/-- When some item's tid conversion raises, the container loop is
aborted. -/
theorem extractItems_eq_none (lis : List ListItem)
    (h : ∃ li ∈ lis, liOk li = false) :
    extractItems lis = none := by
  induction lis with
  | nil => simp at h
  | cons li rest ih =>
      cases hfa : findTitledAnchor li with
      | none =>
          have hrest : ∃ x ∈ rest, liOk x = false := by
            obtain ⟨x, hx, hbad⟩ := h
            rcases List.mem_cons.mp hx with hx1 | hx2
            · subst hx1
              simp [liOk, hfa] at hbad
            · exact ⟨x, hx2, hbad⟩
          simp [extractItems, hfa, ih hrest]
      | some a =>
          cases htid : tidFromHref (a.href.getD "") with
          | none => simp [extractItems, hfa, htid]
          | some tid =>
              have hrest : ∃ x ∈ rest, liOk x = false := by
                obtain ⟨x, hx, hbad⟩ := h
                rcases List.mem_cons.mp hx with hx1 | hx2
                · subst hx1
                  simp [liOk, hfa, htid] at hbad
                · exact ⟨x, hx2, hbad⟩
              simp [extractItems, hfa, htid, ih hrest]

/-- C3, counterexample: a located container holding one list item whose
anchor has `tid=zzz` in its href makes the extraction return the absent
result (`None`) rather than an entry with tid 0 — refuting "defaulting
to 0 when the tid is absent or malformed, and the extraction never
raises on a malformed link". -/
theorem C3_counterexample :
    get_top_posts (.response 200
        [(newReplyBlock, [[{ title := some "T", href := some "x?tid=zzz" }]])]) =
      none := by
  decide

/-- C3, amended: for every list item with a titled anchor in a located
container, when the href's `tid=` value parses as an integer (or `tid=`
is absent, defaulting to 0) the extractor produces the corresponding
entry in document order; but when any `tid=` value is present and
malformed, the integer conversion raises and the whole extraction is
aborted, yielding the absent result (the exception is caught, never
propagated). -/
theorem C3_corrected (status : Nat) (doc : Doc)
    (hs : raisesForStatus status = false) :
    ((∀ li ∈ (findById doc newReplyBlock).getD [] ++
        (findById doc newPostBlock).getD [], liOk li = true) →
      get_top_posts (.response status doc) =
        some { new_reply := specEntries ((findById doc newReplyBlock).getD []),
               new_post := specEntries ((findById doc newPostBlock).getD []) }) ∧
    ((∃ li ∈ (findById doc newReplyBlock).getD [] ++
        (findById doc newPostBlock).getD [], liOk li = false) →
      get_top_posts (.response status doc) = none) := by
  constructor
  · intro h
    have h66 := extractItems_eq_specEntries _
      (fun x hx => h x (List.mem_append_left _ hx))
    have h67 := extractItems_eq_specEntries _
      (fun x hx => h x (List.mem_append_right _ hx))
    simp [get_top_posts, hs, h66, h67]
  · intro h
    obtain ⟨x, hx, hbad⟩ := h
    rcases List.mem_append.mp hx with hx66 | hx67
    · have h66 := extractItems_eq_none _ ⟨x, hx66, hbad⟩
      simp [get_top_posts, hs, h66]
    · have h67 := extractItems_eq_none _ ⟨x, hx67, hbad⟩
      cases h66 : extractItems ((findById doc newReplyBlock).getD []) with
      | none => simp [get_top_posts, hs, h66]
      | some reply => simp [get_top_posts, hs, h66, h67]

/-- C3 witness: the amended theorem applied to the spec's example
document — two items, `tid=42&x=1` and a href without `tid=` — yields
the entries `(42, Post One)` then `(0, Post Two)`. -/
theorem C3_corrected_witness :
    raisesForStatus 200 = false ∧
      get_top_posts (.response 200
          [(newReplyBlock,
            [[{ title := some "Post One", href := some "x?tid=42&x=1" }],
             [{ title := some "Post Two", href := some "nolink" }]])]) =
        some { new_reply :=
                 specEntries ((findById
                   [(newReplyBlock,
                     [[{ title := some "Post One", href := some "x?tid=42&x=1" }],
                      [{ title := some "Post Two", href := some "nolink" }]])]
                   newReplyBlock).getD []),
               new_post :=
                 specEntries ((findById
                   [(newReplyBlock,
                     [[{ title := some "Post One", href := some "x?tid=42&x=1" }],
                      [{ title := some "Post Two", href := some "nolink" }]])]
                   newPostBlock).getD []) } :=
  ⟨by decide,
    (C3_corrected 200
      [(newReplyBlock,
        [[{ title := some "Post One", href := some "x?tid=42&x=1" }],
         [{ title := some "Post Two", href := some "nolink" }]])]
      (by decide)).1 (by decide)⟩

/-- C9, counterexample: in a document where the latest-replies
container is missing and the latest-threads container holds an anchor
with a malformed `tid=zzz`, the extraction returns the absent result —
the missing kind does not yield an empty sequence, the whole call is a
fault — refuting "the extractor yields an empty sequence for that
activity kind ... not a fault" for every such document. -/
theorem C9_counterexample :
    get_top_posts (.response 200
        [(newPostBlock, [[{ title := some "T", href := some "x?tid=zzz" }]])]) =
      none := by
  decide

/-- C9, amended: a missing container never itself causes a fault: with
neither container present the extraction returns empty sequences for
both kinds, and with one container missing it returns an empty sequence
for that kind provided every item of the other container converts — if
the other container holds a malformed tid, its failure aborts the whole
extraction to the absent result. -/
theorem C9_corrected (status : Nat) (doc : Doc)
    (hs : raisesForStatus status = false) :
    (findById doc newReplyBlock = none → findById doc newPostBlock = none →
      get_top_posts (.response status doc) =
        some { new_reply := [], new_post := [] }) ∧
    (findById doc newReplyBlock = none →
      (∀ li ∈ (findById doc newPostBlock).getD [], liOk li = true) →
      get_top_posts (.response status doc) =
        some { new_reply := [],
               new_post := specEntries ((findById doc newPostBlock).getD []) }) ∧
    (findById doc newPostBlock = none →
      (∀ li ∈ (findById doc newReplyBlock).getD [], liOk li = true) →
      get_top_posts (.response status doc) =
        some { new_reply := specEntries ((findById doc newReplyBlock).getD []),
               new_post := [] }) := by
  refine ⟨fun h66 h67 => ?_, fun h66 h67ok => ?_, fun h67 h66ok => ?_⟩
  · simp [get_top_posts, hs, h66, h67, extractItems]
  · have h67e := extractItems_eq_specEntries _ h67ok
    simp [get_top_posts, hs, h66, h67e, extractItems]
  · have h66e := extractItems_eq_specEntries _ h66ok
    simp [get_top_posts, hs, h66e, h67, extractItems]

/-- C9 witness: the amended theorem applied to a document with only the
latest-threads container, holding one well-formed item. -/
theorem C9_corrected_witness :
    raisesForStatus 200 = false ∧
      get_top_posts (.response 200
          [(newPostBlock, [[{ title := some "T", href := some "x?tid=7" }]])]) =
        some { new_reply := [],
               new_post := specEntries ((findById
                 [(newPostBlock, [[{ title := some "T", href := some "x?tid=7" }]])]
                 newPostBlock).getD []) } :=
  ⟨by decide,
    ((C9_corrected 200
        [(newPostBlock, [[{ title := some "T", href := some "x?tid=7" }]])]
        (by decide)).2.1 (by decide)) (by decide)⟩

/-- C4: the load step returns "absent" without a message and leaves the
in-memory jar untouched when the record is missing or zero bytes, and
on a non-empty unparseable record it logs the failure and likewise
leaves the jar untouched instead of raising. -/
theorem C4_confirmed (jar : CookieJar) :
    initLoad .missing jar = (jar, .absentQuiet) ∧
      initLoad .empty jar = (jar, .absentQuiet) ∧
      initLoad .garbage jar = (jar, .absentLogged) :=
  ⟨rfl, rfl, rfl⟩

theorem dictInsert_of_fresh (d : CookieJar) (k v : String)
    (h : k ∉ d.map Prod.fst) : dictInsert d k v = d ++ [(k, v)] := by
  have hc : (d.any fun p => p.1 == k) = false := by
    rw [List.any_eq_false]
    intro p hp
    simp only [beq_iff_eq]
    intro hpk
    exact h (hpk ▸ List.mem_map_of_mem Prod.fst hp)
  simp [dictInsert, hc]

theorem foldl_dictInsert_of_nodup (jar : CookieJar) (pre : CookieJar)
    (h : ((pre ++ jar).map Prod.fst).Nodup) :
    jar.foldl (fun d kv => dictInsert d kv.1 kv.2) pre = pre ++ jar := by
  induction jar generalizing pre with
  | nil => simp
  | cons kv rest ih =>
      obtain ⟨k, v⟩ := kv
      have hk : k ∉ pre.map Prod.fst := by
        intro hk
        have hdis : (pre.map Prod.fst).Disjoint (((k, v) :: rest).map Prod.fst) := by
          rw [List.map_append, List.nodup_append] at h
          exact h.2.2
        exact hdis hk (by simp)
      have h' : (((pre ++ [(k, v)]) ++ rest).map Prod.fst).Nodup := by
        simpa [List.append_assoc] using h
      have := ih (pre ++ [(k, v)]) h'
      simpa [dictInsert_of_fresh pre k v hk, List.append_assoc] using this

/-- With pairwise-distinct cookie names, `dict_from_cookiejar` is the
identity on the association list. -/
theorem dict_from_cookiejar_of_nodup (jar : CookieJar)
    (h : (jar.map Prod.fst).Nodup) : dict_from_cookiejar jar = jar := by
  have := foldl_dictInsert_of_nodup jar [] (by simpa using h)
  simpa [dict_from_cookiejar] using this

/-- C5, counterexample: a jar holding two cookies that share the name
`a` loses the earlier one across `save_cookies`/`load_cookies`, because
`dict_from_cookiejar` keeps one value per name — refuting "for every
cookie collection ... the same set of key-value pairs". -/
theorem C5_counterexample :
    saveLoadRoundTrip [("a", "1"), ("a", "2")] = [("a", "2")] ∧
      ("a", "1") ∈ ([("a", "1"), ("a", "2")] : CookieJar) ∧
      ("a", "1") ∉ saveLoadRoundTrip [("a", "1"), ("a", "2")] := by
  decide

/-- C5, amended: for every cookie collection whose cookie names are
pairwise distinct, saving it and loading it back yields an equivalent
collection — the same set of key-value pairs. -/
theorem C5_corrected (jar : CookieJar) (h : (jar.map Prod.fst).Nodup)
    (kv : String × String) : kv ∈ saveLoadRoundTrip jar ↔ kv ∈ jar := by
  unfold saveLoadRoundTrip
  simp [save_cookies, initLoad, cookiejar_from_dict,
    dict_from_cookiejar_of_nodup jar h]

/-- C5 witness: the amended theorem applied to a concrete two-cookie
jar with distinct names. -/
theorem C5_corrected_witness :
    (([("a", "1"), ("b", "2")] : CookieJar).map Prod.fst).Nodup ∧
      (("a", "1") ∈ saveLoadRoundTrip [("a", "1"), ("b", "2")] ↔
        ("a", "1") ∈ ([("a", "1"), ("b", "2")] : CookieJar)) :=
  ⟨by decide, C5_corrected [("a", "1"), ("b", "2")] (by decide) ("a", "1")⟩

/-- C6: `check_login_status` returns `True` exactly when the site-root
request yields a response whose status does not raise and whose body
contains at least one of the three logged-in markers; every fault path
(timeout, network error, error status) yields `False` — and the
embedding is a total boolean function, never a raised fault. -/
theorem C6_confirmed (env : HttpOutcome) :
    check_login_status env = true ↔
      ∃ status body, env = .response status body ∧
        raisesForStatus status = false ∧
        (containsSub body welcomeMarker || containsSub body logoutMarker ||
          containsSub body panelMarker) = true := by
  cases env with
  | timeout => simp [check_login_status]
  | netError => simp [check_login_status]
  | response status body =>
      by_cases hs : raisesForStatus status
      · simp [check_login_status, hs]
      · simp only [check_login_status, hs]
        constructor
        · intro h
          exact ⟨status, body, rfl, by simpa using hs, by simpa using h⟩
        · rintro ⟨s', b', heq, hs', hmk⟩
          obtain ⟨rfl, rfl⟩ := HttpOutcome.response.injEq .. |>.mp heq
          simpa [hs] using hmk

/-- C8: with `autoLogin` true and no (truthy) credentials, construction
never attempts a login; it probes `check_login_status` on the loaded
(or empty) session, succeeding when the probe reports valid and raising
the no-valid-session error when it reports invalid. -/
theorem C8_confirmed (u p : Option String) (file : FileContent)
    (checkEnv : HttpOutcome) (loginEnv : LoginEnv)
    (h : (truthy u && truthy p) = false) :
    (webInit u p true file checkEnv loginEnv).loginAttempted = false ∧
      (check_login_status checkEnv = true →
        (webInit u p true file checkEnv loginEnv).result = .ok) ∧
      (check_login_status checkEnv = false →
        (webInit u p true file checkEnv loginEnv).result = .sessionInvalid) := by
  by_cases hc : check_login_status checkEnv <;>
    simp [webInit, h, hc]

/-- C8 witness: the theorem applied to a fresh process — no record, no
credentials, probe times out — ends in the no-valid-session error. -/
theorem C8_confirmed_witness :
    (truthy none && truthy none) = false ∧
      (webInit none none true .missing .timeout
        { resp := .timeout, respCookies := [], saveOk := true,
          tokenResp := .timeout }).result = .sessionInvalid :=
  ⟨by decide,
    (C8_confirmed none none .missing .timeout
      { resp := .timeout, respCookies := [], saveOk := true,
        tokenResp := .timeout } (by decide)).2.2 (by decide)⟩

/-- C10: whenever `update_authorization` returns `False` (transport
fault, error status, or a response without the nested authorization
string) the session headers are unchanged; the `Authorization` header
is written only on the `True`-returning path, where it is set to the
delivered token. -/
theorem C10_confirmed (env : TokenOutcome) (hs : Headers) :
    ((update_authorization env hs).1 = false →
      (update_authorization env hs).2 = hs) ∧
    ((update_authorization env hs).1 = true →
      ∃ status a, env = .response status (some a) ∧
        raisesForStatus status = false ∧
        (update_authorization env hs).2 = setHeader hs "Authorization" a) := by
  cases env with
  | timeout => simp [update_authorization]
  | netError => simp [update_authorization]
  | response status auth =>
      by_cases hst : raisesForStatus status
      · simp [update_authorization, hst]
      · cases auth with
        | none => simp [update_authorization, hst]
        | some a =>
            refine ⟨by simp [update_authorization, hst], fun _ => ?_⟩
            exact ⟨status, a, rfl, by simpa using hst, by
              simp [update_authorization, hst]⟩

/-- C10 witness: the theorem applied at a concrete transport fault
leaves a concrete header collection unchanged. -/
theorem C10_confirmed_witness :
    (update_authorization .timeout [("X-Uestc-Bbs", "1")]).1 = false ∧
      (update_authorization .timeout [("X-Uestc-Bbs", "1")]).2 =
        [("X-Uestc-Bbs", "1")] :=
  ⟨by decide,
    (C10_confirmed .timeout [("X-Uestc-Bbs", "1")]).1 (by decide)⟩

end SimpleCli
